import Mathlib

/-
Verification development for the weatherAI repository: a shallow embedding of
the query intent resolution and multi-service orchestration engine
(NLPService/app.py, OllamaService/app.py, MainService/app.py), together with
theorems that settle the specification claims about it.

Python strings are modelled as Lean `String`; Python dicts holding JSON-ish
payloads as association lists over an explicit value type; machine floats that
the code only ever compares or copies (the confidence literals 0.3 .. 0.9) as
rationals; fallible HTTP calls as `Option`/`Except` parameters supplied by the
caller of each embedded function.
-/

namespace WeatherAI

/-! ### Python string primitives -/

/-- Whitespace characters recognised by Python's `\s` and `str.split()` for the
ASCII inputs that the services handle. -/
def isWs (c : Char) : Bool :=
  c = ' ' || c = '\t' || c = '\n' || c = '\x0d' || c = '\x0b' || c = '\x0c'

/-- ASCII uppercase letter, the `[A-Z]` character class. -/
def isUpperAZ (c : Char) : Bool := 'A' ≤ c && c ≤ 'Z'

/-- ASCII lowercase letter, the `[a-z]` character class. -/
def isLowerAZ (c : Char) : Bool := 'a' ≤ c && c ≤ 'z'

/-- ASCII letter, the `[A-Za-z]` character class. -/
def isLetterAZ (c : Char) : Bool := isUpperAZ c || isLowerAZ c

/-- Word character for the regex `\b` boundary (`[A-Za-z0-9_]` on the ASCII
queries the services receive). -/
def isWordChar (c : Char) : Bool := isLetterAZ c || c.isDigit || c = '_'

/-- Substring test on character lists: Python's `needle in hay`. -/
def containsSubL (needle : List Char) : List Char → Bool
  | [] => needle.isEmpty
  | c :: t => needle.isPrefixOf (c :: t) || containsSubL needle t

/-- Python's `needle in hay` on strings. -/
def strContains (hay needle : String) : Bool :=
  containsSubL needle.data hay.data

/-- Python's `str.lower()` on the ASCII queries the services handle. -/
def lowerStr (s : String) : String := ⟨s.data.map Char.toLower⟩

/-- Python's `any(k in q for k in kws)`. -/
def anyKeyword (kws : List String) (q : String) : Bool :=
  kws.any (fun k => strContains q k)

/-- Python's `str.title()` on the ASCII strings the code feeds it: the first
letter of every letter-run is uppercased and the rest lowercased. -/
def titleChars : Bool → List Char → List Char
  | _, [] => []
  | prevLetter, c :: t =>
      if isLetterAZ c then
        (if prevLetter then c.toLower else c.toUpper) :: titleChars true t
      else
        c :: titleChars false t

/-- Python's `str.title()`. -/
def titleStr (s : String) : String := ⟨titleChars false s.data⟩

/-- Python's `str.split()` (split on whitespace runs, dropping empty pieces). -/
def splitWs (s : String) : List String :=
  let p := s.data.foldr
    (fun c (acc : List String × List Char) =>
      if isWs c then
        ((if acc.2.isEmpty then acc.1 else String.mk acc.2 :: acc.1), ([] : List Char))
      else
        (acc.1, c :: acc.2))
    (([] : List String), ([] : List Char))
  if p.2.isEmpty then p.1 else String.mk p.2 :: p.1

/-! ### Regex models

The services use three concrete patterns, all searched with `re.search`
(leftmost match) on the original-case query:

* NLPService recommendation branch: `\bin\s+([A-Z][a-z]+(?:\s+[A-Z][a-z]+)*)`
* NLPService entity fallback:       `\bin\s+([A-Z][a-z]+)`
* MainService fallback branches:    `\bin\s+([A-Za-z]+(?:\s+[A-Za-z]+)*)`

In each pattern every repetition operator sits on a character class disjoint
from the class that follows it, so greedy maximal-munch computes exactly the
regex engine's match and no backtracking is needed.  The capture reported is
group 1 of the leftmost match. -/

/-- Match `[A-Z][a-z]+` at the head of the list, returning the captured word
and the remaining input. -/
def capWordUL : List Char → Option (List Char × List Char)
  | [] => none
  | c :: t =>
      if isUpperAZ c then
        let lows := t.takeWhile isLowerAZ
        if lows.isEmpty then none
        else some (c :: lows, t.drop lows.length)
      else none

/-- Match the greedy repetition `(?:\s+[A-Z][a-z]+)*`, returning the matched
text.  The fuel argument only bounds recursion; every successful iteration
consumes at least two characters, so fuel equal to the input length suffices. -/
def moreWordsUL : Nat → List Char → List Char
  | 0, _ => []
  | fuel + 1, rest =>
      let ws := rest.takeWhile isWs
      if ws.isEmpty then []
      else
        match capWordUL (rest.drop ws.length) with
        | none => []
        | some (w, r2) => ws ++ w ++ moreWordsUL fuel r2

/-- Attempt `in\s+([A-Z][a-z]+(?:\s+[A-Z][a-z]+)*)` at the head of `l`, with
`prev` the character immediately before `l` (for the `\b` boundary). -/
def matchInCapRun (prev : Option Char) (l : List Char) : Option String :=
  match l with
  | 'i' :: 'n' :: rest =>
      if (match prev with | none => true | some p => !isWordChar p) then
        let ws := rest.takeWhile isWs
        if ws.isEmpty then none
        else
          match capWordUL (rest.drop ws.length) with
          | none => none
          | some (w, r2) => some ⟨w ++ moreWordsUL r2.length r2⟩
      else none
  | _ => none

/-- Leftmost-match search loop for `matchInCapRun`. -/
def searchCapRunAux : Option Char → List Char → Option String
  | _, [] => none
  | prev, c :: t =>
      match matchInCapRun prev (c :: t) with
      | some g => some g
      | none => searchCapRunAux (some c) t

/-- Model of `re.search(r'\bin\s+([A-Z][a-z]+(?:\s+[A-Z][a-z]+)*)', query)`,
returning group 1 (NLPService line 117). -/
def searchCapRun (query : String) : Option String :=
  searchCapRunAux none query.data

/-- Attempt `in\s+([A-Z][a-z]+)` at the head of `l` (single-word capture). -/
def matchInCapSingle (prev : Option Char) (l : List Char) : Option String :=
  match l with
  | 'i' :: 'n' :: rest =>
      if (match prev with | none => true | some p => !isWordChar p) then
        let ws := rest.takeWhile isWs
        if ws.isEmpty then none
        else
          match capWordUL (rest.drop ws.length) with
          | none => none
          | some (w, _) => some ⟨w⟩
      else none
  | _ => none

/-- Leftmost-match search loop for `matchInCapSingle`. -/
def searchCapSingleAux : Option Char → List Char → Option String
  | _, [] => none
  | prev, c :: t =>
      match matchInCapSingle prev (c :: t) with
      | some g => some g
      | none => searchCapSingleAux (some c) t

/-- Model of `re.search(r'\bin\s+([A-Z][a-z]+)', query)`, returning group 1
(NLPService line 155). -/
def searchCapSingle (query : String) : Option String :=
  searchCapSingleAux none query.data

/-- Match `[A-Za-z]+` at the head of the list. -/
def capWordAny : List Char → Option (List Char × List Char)
  | [] => none
  | c :: t =>
      if isLetterAZ c then
        let more := t.takeWhile isLetterAZ
        some (c :: more, t.drop more.length)
      else none

/-- Match the greedy repetition `(?:\s+[A-Za-z]+)*`. -/
def moreWordsAny : Nat → List Char → List Char
  | 0, _ => []
  | fuel + 1, rest =>
      let ws := rest.takeWhile isWs
      if ws.isEmpty then []
      else
        match capWordAny (rest.drop ws.length) with
        | none => []
        | some (w, r2) => ws ++ w ++ moreWordsAny fuel r2

/-- Attempt `in\s+([A-Za-z]+(?:\s+[A-Za-z]+)*)` at the head of `l`. -/
def matchInCapAny (prev : Option Char) (l : List Char) : Option String :=
  match l with
  | 'i' :: 'n' :: rest =>
      if (match prev with | none => true | some p => !isWordChar p) then
        let ws := rest.takeWhile isWs
        if ws.isEmpty then none
        else
          match capWordAny (rest.drop ws.length) with
          | none => none
          | some (w, r2) => some ⟨w ++ moreWordsAny r2.length r2⟩
      else none
  | _ => none

/-- Leftmost-match search loop for `matchInCapAny`. -/
def searchCapAnyAux : Option Char → List Char → Option String
  | _, [] => none
  | prev, c :: t =>
      match matchInCapAny prev (c :: t) with
      | some g => some g
      | none => searchCapAnyAux (some c) t

/-- Model of `re.search(r'\bin\s+([A-Za-z]+(?:\s+[A-Za-z]+)*)', query)`,
returning group 1 (MainService lines 95 and 109). -/
def searchCapAny (query : String) : Option String :=
  searchCapAnyAux none query.data

/-! ### JSON-ish values and dicts

The services exchange `Dict[str, Any]` payloads whose values are strings,
numbers, or `None`.  A payload is an association list in insertion order, as a
Python dict is. -/

/-- A JSON-ish dict value: a string, a number, a boolean, or Python
`None`/JSON null. -/
inductive Val where
  | s (v : String)
  | q (v : ℚ)
  | b (v : Bool)
  | nil
  deriving DecidableEq, Repr

/-- Python truthiness of a value. -/
def valTruthy : Val → Bool
  | .s v => !(v = "")
  | .q v => !(v = 0)
  | .b v => v
  | .nil => false

/-- Rendering of a value inside a Python f-string.  The claims only ever
render strings and `None`; the numeric and boolean cases use Python's
spelling but are not exercised by any theorem input. -/
def renderVal : Val → String
  | .s v => v
  | .q v => toString v
  | .b true => "True"
  | .b false => "False"
  | .nil => "None"

/-- A Python `Dict[str, Any]` payload in insertion order. -/
abbrev Dict := List (String × Val)

/-- Python `d[k]` / `d.get(k)` without default: the first binding of `k`. -/
def dictGet (d : Dict) (k : String) : Option Val :=
  (d.find? (fun p => p.1 = k)).map (fun p => p.2)

/-- Python `d.get(k, dflt)` where the caller then uses the value as a string.
A `None` stored under `k` is distinct from an absent key in Python; the only
call sites embedded with this helper are ones the theorems instantiate with
string-valued (or absent) keys. -/
def dictGetS (d : Dict) (k dflt : String) : String :=
  match dictGet d k with
  | some (.s v) => v
  | _ => dflt

/-- Python `d.get("confidence", 0)` as used by the arbitration comparison; all
payloads the theorems evaluate carry numeric confidences. -/
def confD (d : Dict) : ℚ :=
  match dictGet d "confidence" with
  | some (.q v) => v
  | _ => 0

/-- Python `d.get(k, dflt)` returning the stored value, or `dflt` when (and
only when) the key is absent; a stored `None` is returned as `Val.nil`. -/
def dictGetD (d : Dict) (k : String) (dflt : Val) : Val :=
  (dictGet d k).getD dflt

/-- Python `d[k] = v`: replace the first binding in place, else append. -/
def dictSet (d : Dict) (k : String) (v : Val) : Dict :=
  if (d.find? (fun p => p.1 = k)).isSome then
    d.map (fun p => if p.1 = k then (k, v) else p)
  else
    d ++ [(k, v)]

/-- Keys of a payload, in order. -/
def dictKeys (d : Dict) : List String := d.map (fun p => p.1)

/-- Python truthiness of an optional string (`None` and `""` are falsy). -/
def optStrTruthy : Option String → Bool
  | none => false
  | some s => !(s = "")

/-- Python truthiness of an optional dict (`None` and `{}` are falsy). -/
def optDictTruthy : Option Dict → Bool
  | none => false
  | some d => !d.isEmpty

/-! ### NLPService: vocabulary store and rule-based classifier -/

/-- The vocabulary store: a mapping from category name to phrase list, in
insertion order (the on-disk `dynamic_keywords.json` payload). -/
abbrev KeywordStore := List (String × List String)

/-- Python `store.get(cat, dflt)` on the vocabulary store. -/
def kwPhrasesD (kw : KeywordStore) (cat : String) (dflt : List String) : List String :=
  match kw.find? (fun p => p.1 = cat) with
  | some p => p.2
  | none => dflt

/-- Built-in default vocabulary returned by `load_dynamic_keywords` in
NLPService/app.py when no persisted state exists (lines 32-37). -/
def defaultKeywords : KeywordStore :=
  [ ("situational", ["where", "should go", "can go", "where to", "recommend me"]),
    ("weather", ["weather", "temperature", "forecast", "rain", "sunny"]),
    ("recommendation", ["best", "top", "recommend", "suggest", "favorite", "popular"]),
    ("location",
      ["beach", "coast", "shore", "seaside", "ocean", "sea", "coastal", "mountain",
       "peak", "summit", "hill", "alpine", "hiking", "climbing", "city", "town",
       "urban", "metropolitan", "downtown", "capital", "village", "resort", "park",
       "forest", "lake", "river", "island", "peninsula", "valley", "desert",
       "canyon", "volcano", "glacier", "waterfall", "cave", "monument", "landmark",
       "attraction", "destination"]) ]

/-- Keyword-priority cascade that picks the recommendation category
(NLPService lines 102-115): hardcoded beach, mountain and city keyword groups
in priority order, then the dynamic `location` vocabulary, then the literal
`place`/`places` check, on the lowercased query. -/
def recommendationCategory (kw : KeywordStore) (ql : String) : Option String :=
  if anyKeyword ["beach", "coast", "shore", "seaside", "ocean", "sea", "coastal", "beaches"] ql then
    some "beach"
  else if anyKeyword ["mountain", "peak", "summit", "hill", "alpine", "hiking", "climbing",
      "mountains", "peaks", "summits"] ql then
    some "mountain"
  else if anyKeyword ["city", "town", "urban", "metropolitan", "downtown", "capital", "cities"] ql then
    some "city"
  else if anyKeyword (kwPhrasesD kw "location" []) ql then
    some "place"
  else if strContains ql "place" || strContains ql "places" then
    some "place"
  else
    none

/-- One spaCy token as consumed by `parse_query_text`: its text, its
part-of-speech tag, and its `is_alpha` flag. -/
structure SpacyTok where
  text : String
  pos : String
  isAlpha : Bool
  deriving DecidableEq, Repr

/-- Stoplist for the proper-noun heuristic (NLPService line 147). -/
def skipWords : List String :=
  ["weather", "temperature", "forecast", "today", "tomorrow", "yesterday"]

/-- Weather-subtype keyword groups in the fixed iteration order of the Python
dict literal (NLPService lines 161-167). -/
def weatherKeywordGroups : List (String × List String) :=
  [ ("temperature", ["temperature", "temp", "hot", "cold", "warm", "cool"]),
    ("current_weather", ["weather", "forecast", "conditions"]),
    ("humidity", ["humidity", "humid", "moisture"]),
    ("wind", ["wind", "breeze", "gusty"]),
    ("precipitation", ["rain", "snow", "precipitation", "storm", "drizzle"]) ]

/-- First weather keyword group hit on the lowercased query, if any
(NLPService lines 169-173). -/
def weatherIntentHit (ql : String) : Option String :=
  (weatherKeywordGroups.find? (fun g => anyKeyword g.2 ql)).map (fun g => g.1)

/-- The rule-based classifier `parse_query_text` (NLPService lines 91-181).
The spaCy analysis of the query is supplied as data: `ents` is the list of
`(text, label)` named-entity pairs of `doc.ents`, `tokens` the token stream.
The recommendation and situational branches never consult either. -/
def parseQueryText (kw : KeywordStore) (ents : List (String × String))
    (tokens : List SpacyTok) (query : String) : Dict :=
  let ql := lowerStr query
  let recKws := kwPhrasesD kw "recommendation" []
  let recBranch : Option Dict :=
    if anyKeyword recKws ql && strContains ql "in" then
      match searchCapRun query, recommendationCategory kw ql with
      | some country, some rt =>
          some [("original_query", .s query), ("intent", .s "recommendation"),
                ("location", .nil), ("confidence", .q (9/10)),
                ("processing_method", .s "spacy"),
                ("recommendation_type", .s rt), ("country", .s country)]
      | _, _ => none
    else none
  match recBranch with
  | some d => d
  | none =>
    let situKws := kwPhrasesD kw "situational" ["where", "should go", "can go"]
    if anyKeyword situKws ql && !anyKeyword recKws ql then
      [("original_query", .s query), ("intent", .s "situational"),
       ("location", .nil), ("confidence", .q (9/10)),
       ("processing_method", .s "spacy")]
    else
      let entHit := ents.find? (fun e => e.2 = "GPE" || e.2 = "LOC")
      let lc : Option String × ℚ :=
        match entHit with
        | some e => (some e.1, 4/5)
        | none =>
          match tokens.find? (fun t =>
              t.pos = "PROPN" && t.isAlpha && decide (2 < t.text.length)
                && !(skipWords.contains (lowerStr t.text))) with
          | some t => (some t.text, 3/5)
          | none =>
            match searchCapSingle query with
            | some l => (some l, 7/10)
            | none => (none, 1/2)
      let (intent, confidence) :=
        match weatherIntentHit ql with
        | some it => (it, min (lc.2 + 1/5) (9/10))
        | none => ("general_weather", lc.2)
      [("original_query", .s query), ("intent", .s intent),
       ("location", match lc.1 with | some l => .s l | none => .nil),
       ("confidence", .q confidence), ("processing_method", .s "spacy")]

/-- One iteration of the `update_keywords` loop (NLPService lines 197-202):
for an existing category, extend its phrase list and deduplicate
(`list(set(...))`, modelled as `dedup` of the concatenation, which has the
same membership); install the list verbatim for a new category. -/
def updateKeywordsStep (cur : KeywordStore) (u : String × List String) : KeywordStore :=
  if (cur.find? (fun p => p.1 = u.1)).isSome then
    cur.map (fun p => if p.1 = u.1 then (u.1, (p.2 ++ u.2).dedup) else p)
  else
    cur ++ [u]

/-- The `update_keywords` bulk merge (NLPService lines 193-207), iterating
the step over the update mapping's entries in order. -/
def updateKeywords (current : KeywordStore) (updates : KeywordStore) : KeywordStore :=
  updates.foldl updateKeywordsStep current

/-- Phrase list of a category, empty when the category is absent. -/
def getPhrases (kw : KeywordStore) (cat : String) : List String :=
  kwPhrasesD kw cat []

/-! ### NLPService: the `/parse` endpoint response model

`parse_query` returns `QueryResponse(**result)`; pydantic constructs the
declared five fields and ignores every extra keyword argument (the default
`extra` policy), so `recommendation_type` and `country` never cross the HTTP
boundary. -/

/-- The declared response model of the NLP and Ollama `/parse` endpoints
(NLPService lines 14-19, OllamaService lines 14-19). -/
structure QueryResponse where
  original_query : String
  intent : String
  location : Option String
  confidence : ℚ
  processing_method : String
  deriving DecidableEq, Repr

/-- Pydantic validation of `QueryResponse(**result)`: the four required
fields must be present with their declared types, `location` defaults to
`None`, every other key of `result` is ignored.  `none` is a
`ValidationError`, which the route surfaces as HTTP 500. -/
def mkQueryResponse (d : Dict) : Option QueryResponse :=
  match dictGet d "original_query", dictGet d "intent",
        dictGet d "confidence", dictGet d "processing_method" with
  | some (.s oq), some (.s it), some (.q c), some (.s pm) =>
      some { original_query := oq, intent := it,
             location := match dictGet d "location" with | some (.s l) => some l | _ => none,
             confidence := c, processing_method := pm }
  | _, _, _, _ => none

/-- JSON serialization of a `QueryResponse` (all five declared fields, a
null `location` included). -/
def queryResponseFields (r : QueryResponse) : Dict :=
  [("original_query", .s r.original_query), ("intent", .s r.intent),
   ("location", match r.location with | some l => .s l | none => .nil),
   ("confidence", .q r.confidence), ("processing_method", .s r.processing_method)]

/-- The NLP `/parse` endpoint (NLPService lines 79-89): classify, then pass
the result dict through the `QueryResponse` model. -/
def parseEndpoint (kw : KeywordStore) (ents : List (String × String))
    (tokens : List SpacyTok) (query : String) : Option Dict :=
  (mkQueryResponse (parseQueryText kw ents tokens query)).map queryResponseFields

/-! ### OllamaService: the generative parser adapter -/

/-- Outcome of the HTTP call to the Ollama generation endpoint as seen by
`parse_with_ollama`: either the `await client.post` raised (timeout, refused
connection), or a response arrived with a status code and — for the text the
model returned — the result of `json.loads`, `none` meaning
`json.JSONDecodeError`. -/
inductive OllamaCallResult where
  | exn
  | http (status : ℕ) (decoded : Option Dict)

/-- The degraded fallback result of `parse_with_ollama` (OllamaService
lines 204-210). -/
def degradedParse (query : String) : Dict :=
  [("original_query", .s query), ("intent", .s "general_weather"),
   ("location", .nil), ("confidence", .q (3/10)),
   ("processing_method", .s "ollama")]

/-- The generative parse adapter `parse_with_ollama` (OllamaService
lines 139-210).  An `Except.error` is an exception propagating out of the
function: the raised `Exception(f"Ollama API error: ...")` on a non-200
status, or the unhandled httpx error on a failed call.  Only a body that
fails JSON decoding produces the degraded result. -/
def parseWithOllama (query : String) (call : OllamaCallResult) : Except String Dict :=
  match call with
  | .exn => .error "httpx request error"
  | .http status decoded =>
      if status ≠ 200 then .error ("Ollama API error: " ++ toString status)
      else
        match decoded with
        | some parsed =>
            .ok (dictSet (dictSet parsed "original_query" (.s query))
                  "processing_method" (.s "ollama"))
        | none => .ok (degradedParse query)

/-- MainService's `try_ollama` (lines 354-362) composed with the Ollama
service's `/parse` route (OllamaService lines 39-46): an exception inside the
route yields a non-200 reply, which `try_ollama` converts to `None`; a
successful parse is validated and serialized through `QueryResponse`. -/
def tryOllama (query : String) (call : OllamaCallResult) : Option Dict :=
  match parseWithOllama query call with
  | .ok d => (mkQueryResponse d).map queryResponseFields
  | .error _ => none

/-! ### MainService: arbitration, situational handling, recommendation
fan-out and the response formatter

The downstream collaborators are supplied as data: `nlpRes`/`ollamaRes` are
the `Option Dict` outcomes of `try_nlp`/`try_ollama`, `recommendFn` maps the
recommendation prompt to the candidate list
(`get_recommendations_from_ollama(...).get("locations", [])`, `[]` on any
failure), and `lookup` is `try_playwright`, returning the weather JSON dict
or `None`.  Every embedded handler also returns the trace of dicts passed to
`try_playwright`, so the theorems can speak about which weather lookups a
request issues.  The `update_keywords_from_ollama` call mutates only the
on-disk vocabulary file and never the response; it is modelled separately as
`updateKeywordsFromOllama`. -/

/-- The response model of MainService's `/ask` (lines 26-33). -/
structure WResp where
  response : String
  status : String
  parsed_query : Dict
  weather_data : Option Dict := none
  processing_method : String
  requires_location : Bool := false
  suggested_actions : Option (List String) := none
  deriving DecidableEq, Repr

/-- Python truthiness of `weather_data and weather_data.get("success")`. -/
def lookupSucceeded : Option Dict → Bool
  | none => false
  | some wd => !wd.isEmpty && valTruthy (dictGetD wd "success" .nil)

/-- Rendering of the `location` variable inside an f-string (it can be a
string or `None`). -/
def renderOptLoc : Option String → String
  | some l => l
  | none => "None"

/-- The temperature field is rendered by `format_response` iff it is truthy
and not the sentinel (MainService line 378). -/
def tempShownD (wd : Dict) : Bool :=
  match dictGet wd "temperature" with
  | some v => valTruthy v && !(v = .s "N/A")
  | none => false

/-- The condition field is rendered iff truthy, not the sentinel, and not the
literal `Unknown` (MainService line 381). -/
def condShownD (wd : Dict) : Bool :=
  match dictGet wd "condition" with
  | some v => valTruthy v && !(v = .s "N/A") && !(v = .s "Unknown")
  | none => false

/-- The single-location formatter `format_response` (MainService
lines 374-384).  The Python function also receives `parsed_query` but never
reads it. -/
def formatResponse (weather_data : Dict) : String :=
  String.intercalate " "
    (["Here\x27s the weather for "
        ++ renderVal (dictGetD weather_data "location" (.s "Unknown")) ++ ":"]
      ++ (if tempShownD weather_data then
            ["🌡️ Temperature: " ++ renderVal (dictGetD weather_data "temperature" .nil)]
          else [])
      ++ (if condShownD weather_data then
            ["☁️ Condition: " ++ renderVal (dictGetD weather_data "condition" .nil)]
          else []))

/-- The situational handler `handle_situational_query` (MainService
lines 204-240). -/
def handleSituationalQuery (query : String) : WResp :=
  let ql := lowerStr query
  let suggestions :=
    if anyKeyword ["mountain", "mountains", "peak", "peaks", "summit"] ql then
      ["Tell me your location to find nearby mountains",
       "Or ask about specific mountains (e.g., \x27Weather at Everest Base Camp\x27)",
       "Or ask about mountains in a country (e.g., \x27Mountains in Nepal weather\x27)"]
    else if anyKeyword ["beach", "beaches", "coast", "shore"] ql then
      ["Tell me your location to find nearby beaches",
       "Or ask about specific beaches (e.g., \x27Weather at Miami Beach\x27)",
       "Or ask about beaches in a country (e.g., \x27Beaches in Spain weather\x27)"]
    else if anyKeyword ["city", "cities", "town"] ql then
      ["Tell me your location to find nearby cities",
       "Or ask about specific cities (e.g., \x27Weather in Paris\x27)",
       "Or ask about cities in a country (e.g., \x27Cities in Italy weather\x27)"]
    else
      ["Tell me your current location",
       "Or ask about a specific place (e.g., \x27Weather in Paris\x27)",
       "Or ask about places in a region (e.g., \x27Best places in Europe\x27)"]
  { response := "I would love to help you find that place! To give you accurate weather information, could you tell me your current city or location?",
    status := "location_required",
    parsed_query := [("original_query", .s query), ("intent", .s "situational_recommendation")],
    processing_method := "situational",
    requires_location := true,
    suggested_actions := some suggestions }

/-- The pre-NLP fallback recommendation detection at the top of `ask_weather`
(MainService lines 83-119). -/
def fallbackParse (query : String) : Option Dict :=
  let ql := lowerStr query
  if anyKeyword ["best", "top", "recommend", "suggest"] ql && strContains ql "in" then
    if anyKeyword ["mountain", "mountains", "peak", "peaks", "summit", "summits"] ql then
      some [("original_query", .s query), ("intent", .s "mountain_recommendation"),
            ("location", if strContains ql "nepal" then .s "Nepal" else .nil),
            ("confidence", .q (9/10)), ("processing_method", .s "fallback")]
    else if anyKeyword ["beach", "beaches", "coast", "shore", "seaside"] ql then
      some [("original_query", .s query), ("intent", .s "beach_recommendation"),
            ("location", match searchCapAny query with | some c => .s (titleStr c) | none => .nil),
            ("confidence", .q (9/10)), ("processing_method", .s "fallback")]
    else if anyKeyword ["city", "cities", "town", "urban"] ql then
      some [("original_query", .s query), ("intent", .s "city_recommendation"),
            ("location", match searchCapAny query with | some c => .s (titleStr c) | none => .nil),
            ("confidence", .q (9/10)), ("processing_method", .s "fallback")]
    else none
  else none

/-- The arbitration step of `ask_weather` (MainService lines 126-131): when
the generative result is truthy, it replaces the current parse exactly when
the current parse is falsy or the generative confidence is strictly
higher. -/
def arbitrate (parsed ollama : Option Dict) : Option Dict :=
  if optDictTruthy ollama then
    if !optDictTruthy parsed || confD (ollama.getD []) > confD (parsed.getD []) then ollama
    else parsed
  else parsed

/-- The static per-country peak table of `handle_recommendation_query`
(MainService lines 267-280), keys exactly as written in the source. -/
def mountainFallback : List (String × List String) :=
  [ ("Switzerland", ["Matterhorn", "Jungfrau", "Eiger", "Pilatus", "Rigi"]),
    ("switzerland", ["Matterhorn", "Jungfrau", "Eiger", "Pilatus", "Rigi"]),
    ("France", ["Mont Blanc", "Mont Ventoux", "Pic du Midi", "Chamonix", "Annecy"]),
    ("france", ["Mont Blanc", "Mont Ventoux", "Pic du Midi", "Chamonix", "Annecy"]),
    ("Italy", ["Matterhorn", "Monte Bianco", "Dolomites", "Gran Paradiso", "Monte Rosa"]),
    ("italy", ["Matterhorn", "Monte Bianco", "Dolomites", "Gran Paradiso", "Monte Rosa"]),
    ("Spain", ["Teide", "Mulhacén", "Aneto", "Pico de Europa", "Nevado"]),
    ("spain", ["Teide", "Mulhacén", "Aneto", "Pico de Europa", "Nevado"]),
    ("Austria", ["Grossglockner", "Zugspitze", "Kitzbühel", "Innsbruck", "Salzburg"]),
    ("austria", ["Grossglockner", "Zugspitze", "Kitzbühel", "Innsbruck", "Salzburg"]),
    ("Nepal", ["Mount Everest", "K2", "Makalu", "Cho Oyu", "Lhotse"]),
    ("nepal", ["Mount Everest", "K2", "Makalu", "Cho Oyu", "Lhotse"]) ]

/-- Python `location in mountain_fallback` / `mountain_fallback[location]`. -/
def mountainTableGet (loc : Option String) : Option (List String) :=
  match loc with
  | some l => (mountainFallback.find? (fun p => p.1 = l)).map (fun p => p.2)
  | none => none

/-- Candidate resolution of `handle_recommendation_query` (MainService
lines 243-288): sentinel/absent-location country detection, recommendation
type from the intent string, the generative candidate call, and the
mountain-table override.  Returns
`(recommendation_type, location, candidate list)`. -/
def resolveRecommendation (parsed : Dict) (recommendFn : String → List String) :
    String × Option String × List String :=
  let intent := dictGetS parsed "intent" "recommendation"
  let location0 : Option String :=
    match dictGet parsed "location" with
    | none => some "Unknown"
    | some (.s v) => some v
    | some _ => none
  let original_query := lowerStr (dictGetS parsed "original_query" "")
  let location1 : Option String :=
    if !optStrTruthy location0 || location0 = some "Unknown" then
      if strContains original_query "nepal" then some "Nepal"
      else if strContains original_query "switzerland" then some "Switzerland"
      else if strContains original_query "france" then some "France"
      else if strContains original_query "italy" then some "Italy"
      else if strContains original_query "spain" then some "Spain"
      else location0
    else location0
  let recommendation_type :=
    if strContains intent "beach" then "beach"
    else if strContains intent "city" then "city"
    else if strContains intent "mountain" then "mountain"
    else "place"
  let query_text :=
    if recommendation_type = "mountain" then
      "Famous mountains in " ++ renderOptLoc location1
    else
      "Best " ++ recommendation_type ++ "s in " ++ renderOptLoc location1
  let locations0 := recommendFn query_text
  let fin : Option String × List String :=
    if recommendation_type = "mountain" then
      match mountainTableGet location1 with
      | some peaks => (location1, peaks)
      | none =>
          if !optStrTruthy location1 || location1 = some "Unknown" then
            if strContains original_query "nepal" then
              (some "Nepal", ["Mount Everest", "K2", "Makalu", "Cho Oyu", "Lhotse"])
            else (location1, locations0)
          else (location1, locations0)
    else (location1, locations0)
  (recommendation_type, fin.1, fin.2)

/-- The per-candidate lookup request dict built inside the fan-out loop
(MainService lines 300-306). -/
def recLookupDict (loc : String) : Dict :=
  [("original_query", .s ("Weather in " ++ loc)), ("intent", .s "weather"),
   ("location", .s loc), ("confidence", .q (9/10)),
   ("processing_method", .s "recommendation")]

/-- One aggregated observation as stored in `weather_results`
(MainService lines 309-313): the candidate name and the raw
`temperature`/`condition` values, with the string `"N/A"` substituted only
when the key is absent from the lookup response. -/
structure Obs where
  location : String
  temperature : Val
  condition : Val
  deriving DecidableEq, Repr

/-- The observation record appended for a successful candidate lookup
(MainService lines 309-313). -/
def mkObs (loc : String) (wd : Dict) : Obs :=
  { location := loc,
    temperature := dictGetD wd "temperature" (.s "N/A"),
    condition := dictGetD wd "condition" (.s "N/A") }

/-- The observations kept by the fan-out loop (MainService lines 298-313):
one per candidate among the first 3 whose lookup returned a truthy dict with
a truthy `success`. -/
def aggResults (locations : List String) (lookup : Dict → Option Dict) : List Obs :=
  (locations.take 3).filterMap (fun loc =>
    match lookup (recLookupDict loc) with
    | some wd =>
        if !wd.isEmpty && valTruthy (dictGetD wd "success" .nil) then
          some (mkObs loc wd)
        else none
    | none => none)

/-- One rendered line of the recommendation aggregate (MainService
line 325). -/
def renderObsLine (o : Obs) : String :=
  "🏙️ " ++ o.location ++ ": " ++ renderVal o.temperature ++ ", " ++ renderVal o.condition

/-- Fan-out and aggregation over the candidate list (MainService
lines 290-332, after candidate resolution): issue one lookup per candidate
among the first 3, keep the successes, and compose the aggregate response.
The second component is the list of dicts passed to `try_playwright`. -/
def fanOutAggregate (rt : String) (loc : Option String) (locations : List String)
    (parsed : Dict) (lookup : Dict → Option Dict) : WResp × List Dict :=
  let issued := (locations.take 3).map recLookupDict
  let results := aggResults locations lookup
  (if results.isEmpty then
    { response := "Sorry, I couldn\x27t get weather data for the recommended "
        ++ rt ++ "s in " ++ renderOptLoc loc ++ ".",
      status := "error", parsed_query := parsed,
      processing_method := "playwright" }
  else
    { response := String.intercalate " "
        (("Best " ++ rt ++ "s in " ++ renderOptLoc loc ++ " today:")
          :: results.map renderObsLine),
      status := "success", parsed_query := parsed,
      processing_method := "recommendation" }, issued)

/-- The recommendation handler `handle_recommendation_query` (MainService
lines 242-332). -/
def handleRecommendationQuery (parsed : Dict) (recommendFn : String → List String)
    (lookup : Dict → Option Dict) : WResp × List Dict :=
  let r := resolveRecommendation parsed recommendFn
  if r.2.2.isEmpty then
    ({ response := "Sorry, I couldn\x27t find recommendations for "
         ++ r.1 ++ "s in " ++ renderOptLoc r.2.1 ++ ".",
       status := "error", parsed_query := parsed,
       processing_method := "ollama" }, [])
  else
    fanOutAggregate r.1 r.2.1 r.2.2 parsed lookup

/-- Intents routed to the recommendation handler (MainService lines 134 and
151). -/
def isRecIntent (it : String) : Bool :=
  it = "recommendation" || it = "beach_recommendation"
    || it = "city_recommendation" || it = "mountain_recommendation"

/-- Python `parsed_query and parsed_query.get("intent") in [...]`. -/
def parsedHasRecIntent (parsed : Option Dict) : Bool :=
  match parsed with
  | some d => !d.isEmpty && (match dictGet d "intent" with
      | some (.s i) => isRecIntent i
      | _ => false)
  | none => false

/-- Python `parsed_query and parsed_query.get("intent") == "situational"`. -/
def parsedIsSituational (parsed : Option Dict) : Bool :=
  match parsed with
  | some d => !d.isEmpty && (dictGet d "intent" = some (.s "situational"))
  | none => false

/-- The parse synthesized when a situational query comes with a user
location (MainService lines 142-148 and 159-165); only reached when the user
location is truthy. -/
def synthUserLocation (query : String) (userLocation : Option String) : Dict :=
  [("original_query", .s query), ("intent", .s "weather"),
   ("location", .s (userLocation.getD "")), ("confidence", .q (9/10)),
   ("processing_method", .s "user_location")]

/-- Python `(parsed_query.get("location") if parsed_query else None)` as a
string-or-`None` (MainService line 167). -/
def parsedLocation (parsed : Option Dict) : Option String :=
  match parsed with
  | some d => (match dictGet d "location" with | some (.s v) => some v | _ => none)
  | none => none

/-- The tail of `ask_weather` (MainService lines 167-194): pick the location
from the user or the parse, refuse without one, otherwise issue the single
weather lookup and format the reply.  A `None` parse reaching the lookup is
modelled as the empty dict; no claim exercises that corner. -/
def weatherTail (query : String) (userLocation : Option String)
    (parsed : Option Dict) (lookup : Dict → Option Dict) : WResp × List Dict :=
  let location : Option String :=
    if optStrTruthy userLocation then userLocation
    else parsedLocation parsed
  if !optStrTruthy location then
    ({ response := "I need a location to provide weather information. Please specify a city or place.",
       status := "error",
       parsed_query := [("original_query", .s query), ("error", .s "No location found")],
       processing_method := "none", requires_location := true,
       suggested_actions := some ["Please provide your city or location"] }, [])
  else
    let pd := parsed.getD []
    let wd := lookup pd
    if lookupSucceeded wd then
      ({ response := formatResponse (wd.getD []), status := "success",
         parsed_query := pd, weather_data := wd,
         processing_method := dictGetS pd "processing_method" "unknown" }, [pd])
    else
      ({ response := "Sorry, I couldn\x27t get weather data for " ++ location.getD "",
         status := "error", parsed_query := pd, weather_data := wd,
         processing_method := dictGetS pd "processing_method" "unknown" }, [pd])

/-- The literally repeated recommendation/situational checks of `ask_weather`
(MainService lines 150-165) followed by the weather tail. -/
def askWeatherStage2 (query : String) (userLocation : Option String)
    (parsed : Option Dict) (recommendFn : String → List String)
    (lookup : Dict → Option Dict) : WResp × List Dict :=
  if parsedHasRecIntent parsed then
    handleRecommendationQuery (parsed.getD []) recommendFn lookup
  else if parsedIsSituational parsed then
    if !optStrTruthy userLocation then (handleSituationalQuery query, [])
    else weatherTail query userLocation (some (synthUserLocation query userLocation)) lookup
  else weatherTail query userLocation parsed lookup

/-- The first recommendation/situational dispatch of `ask_weather`
(MainService lines 133-148) followed by its repeated block. -/
def askWeatherRoute (query : String) (userLocation : Option String)
    (parsed : Option Dict) (recommendFn : String → List String)
    (lookup : Dict → Option Dict) : WResp × List Dict :=
  if parsedHasRecIntent parsed then
    handleRecommendationQuery (parsed.getD []) recommendFn lookup
  else if parsedIsSituational parsed then
    if !optStrTruthy userLocation then (handleSituationalQuery query, [])
    else askWeatherStage2 query userLocation (some (synthUserLocation query userLocation)) recommendFn lookup
  else askWeatherStage2 query userLocation parsed recommendFn lookup

/-- The parse that reaches the routing stage of `ask_weather` (MainService
lines 79-131): fallback recommendation detection, the NLP parse when the
fallback found nothing, then arbitration with the generative parse. -/
def askWeatherParsed (query : String) (nlpRes ollamaRes : Option Dict) : Option Dict :=
  let parsed0 := fallbackParse query
  arbitrate (if optDictTruthy parsed0 then parsed0 else nlpRes) ollamaRes

/-- The `/ask` handler `ask_weather` (MainService lines 76-202): fallback
recommendation detection, NLP parse when the fallback found nothing,
arbitration with the generative parse, then routing. -/
def askWeather (query : String) (userLocation : Option String)
    (nlpRes ollamaRes : Option Dict) (recommendFn : String → List String)
    (lookup : Dict → Option Dict) : WResp × List Dict :=
  askWeatherRoute query userLocation (askWeatherParsed query nlpRes ollamaRes)
    recommendFn lookup

/-- Built-in defaults of MainService's own `load_dynamic_keywords`
(lines 44-47). -/
def mainDefaultKeywords : KeywordStore :=
  [ ("situational", ["where", "best place", "worst place", "should go", "can go"]),
    ("weather", ["weather", "temperature", "forecast", "rain", "sunny"]) ]

/-- MainService's `update_keywords_from_ollama` (lines 56-70): collect the
long words of the query not already known when the query carries one of the
trigger phrases, and union them into the `situational` category.  The loaded
store always carries the `situational` and `weather` keys. -/
def updateKeywordsFromOllama (query : String) (keywords : KeywordStore) : KeywordStore :=
  let ql := lowerStr query
  let newKws := (splitWs ql).filter (fun w =>
    decide (3 < w.length)
      && !(getPhrases keywords "situational").contains w
      && !(getPhrases keywords "weather").contains w
      && anyKeyword ["where", "best", "worst", "should", "can"] ql)
  if newKws.isEmpty then keywords
  else keywords.map (fun p =>
    if p.1 = "situational" then ("situational", (p.2 ++ newKws).dedup) else p)

/-! ### Timing model of the fan-out loop

The fan-out loop (MainService lines 299-306) runs inside a single coroutine:
`weather_data = await try_playwright(...)` suspends until the lookup for the
current candidate completes (or its 60-second client timeout fires), and only
then does the next iteration send its request.  The schedule below records
the resulting start/finish instants of each lookup given the duration of
each call: lookup `k+1` starts exactly when lookup `k` finishes. -/

/-- Start/finish instants of sequentially awaited calls with the given
durations, starting at time `t`. -/
def fanOutSchedule : ℕ → List ℕ → List (ℕ × ℕ)
  | _, [] => []
  | t, d :: ds => (t, t + d) :: fanOutSchedule (t + d) ds

/-- The lookup schedule of one recommendation request: one sequentially
awaited call for each of the first 3 candidates. -/
def recommendationLookupSchedule (locations : List String) (dur : String → ℕ) :
    List (ℕ × ℕ) :=
  fanOutSchedule 0 ((locations.take 3).map dur)

/-- The per-call ceiling of `try_playwright`
(`httpx.AsyncClient(timeout=60.0)`, MainService line 366), in seconds. -/
def tryPlaywrightTimeout : ℕ := 60

/-- Finish time of the last call of a schedule (the request's end-to-end
fan-out latency), `0` for an empty schedule. -/
def scheduleEnd (sch : List (ℕ × ℕ)) : ℕ :=
  sch.foldl (fun _ p => p.2) 0

/-! ### Helper lemmas -/

/-- A non-empty list is not `isEmpty`. -/
theorem isEmpty_false_of_ne_nil {α : Type} {l : List α} (h : l ≠ []) :
    l.isEmpty = false := by
  cases l with
  | nil => exact absurd rfl h
  | cons a t => rfl

/-- Folding the last-finish accumulator over a non-empty sequential schedule
lands on the start time plus the total duration. -/
theorem foldl_fanOutSchedule (d : ℕ) (ds : List ℕ) :
    ∀ t a, List.foldl (fun _ p => p.2) a (fanOutSchedule t (d :: ds)) = t + (d :: ds).sum := by
  induction ds generalizing d with
  | nil => intro t a; simp [fanOutSchedule, scheduleEnd]
  | cons d2 ds ih =>
      intro t a
      have h2 := ih d2 (t + d) (t + d)
      simp only [fanOutSchedule, List.foldl_cons] at h2 ⊢
      rw [h2]
      simp [List.sum_cons]
      ring

/-- End-to-end latency of the sequential schedule is the sum of the
durations. -/
theorem scheduleEnd_fanOutSchedule (ds : List ℕ) :
    scheduleEnd (fanOutSchedule 0 ds) = ds.sum := by
  cases ds with
  | nil => rfl
  | cons d ds =>
      have h := foldl_fanOutSchedule d ds 0 0
      simpa [scheduleEnd] using h

/-- Each call of the sequential schedule starts exactly when the previous
one finishes. -/
theorem chain_fanOutSchedule (ds : List ℕ) :
    ∀ t, (fanOutSchedule t ds).Chain' (fun p q => p.2 = q.1) := by
  induction ds with
  | nil => intro t; constructor
  | cons d ds ih =>
      intro t
      cases ds with
      | nil => simp [fanOutSchedule]
      | cons d2 ds2 =>
          refine List.Chain'.cons rfl (ih (t + d))

/-! ### Claim C5 -/

/-- Claim C5: arbitration between the rule-based/entity result `R` and the
generative result `G` is deterministic: `G` replaces `R` exactly when `G`'s
confidence is strictly greater than `R`'s, and whenever the confidences are
equal, `R` is selected. -/
theorem arbitration_strict_confidence_tiebreak (R G : Dict)
    (hR : R ≠ []) (hG : G ≠ []) :
    arbitrate (some R) (some G) = (if confD G > confD R then some G else some R)
      ∧ (confD G = confD R → arbitrate (some R) (some G) = some R) := by
  have hR2 : R.isEmpty = false := isEmpty_false_of_ne_nil hR
  have hG2 : G.isEmpty = false := isEmpty_false_of_ne_nil hG
  constructor
  · unfold arbitrate optDictTruthy
    simp [hR2, hG2]
  · intro heq
    unfold arbitrate optDictTruthy
    simp [hR2, hG2, heq]

/-- Witness for C5: two concrete parses with equal confidence 0.9; the
arbitration keeps the rule-based one. -/
theorem arbitration_strict_confidence_tiebreak_witness :
    confD [("intent", .s "situational"), ("confidence", .q (9/10))]
        = confD [("intent", .s "recommendation"), ("confidence", .q (9/10))]
      ∧ arbitrate (some [("intent", .s "recommendation"), ("confidence", .q (9/10))])
          (some [("intent", .s "situational"), ("confidence", .q (9/10))])
          = some [("intent", .s "recommendation"), ("confidence", .q (9/10))] :=
  ⟨rfl,
   (arbitration_strict_confidence_tiebreak
      [("intent", .s "recommendation"), ("confidence", .q (9/10))]
      [("intent", .s "situational"), ("confidence", .q (9/10))]
      (by decide) (by decide)).2 rfl⟩

/-! ### Claim C6

The claim asserts the per-candidate lookups of the fan-out are issued
concurrently.  The loop at MainService lines 299-306 awaits each
`try_playwright` call before starting the next, so on the faithful timing
model the schedule is fully serialized; with three candidates each taking
the full 60-second client budget, end-to-end latency is 180 seconds, three
round-trips rather than one. -/

/-- Counterexample to claim C6: for three candidates whose lookups each take
60 seconds, the lookups do not overlap at all — each starts exactly when the
previous one finishes — and the fan-out latency is 180 seconds, which is not
bounded by one 60-second round-trip. -/
theorem fan_out_lookups_serialized_cx :
    recommendationLookupSchedule ["Matterhorn", "Jungfrau", "Eiger"] (fun _ => 60)
        = [(0, 60), (60, 120), (120, 180)]
      ∧ scheduleEnd (recommendationLookupSchedule ["Matterhorn", "Jungfrau", "Eiger"]
          (fun _ => 60)) = 180
      ∧ ¬(180 ≤ tryPlaywrightTimeout) := by
  refine ⟨rfl, rfl, by decide⟩

/-- Amended claim C6: the aggregator's per-candidate lookups (one per
candidate, up to 3, each with its own 60-second client timeout) are issued
sequentially — every lookup starts exactly when the previous one finishes —
so the end-to-end fan-out latency is the sum of the individual lookup
durations, bounded by 3 timeouts rather than one. -/
theorem fan_out_sequential_latency (locations : List String) (dur : String → ℕ) :
    (recommendationLookupSchedule locations dur).Chain' (fun p q => p.2 = q.1)
      ∧ scheduleEnd (recommendationLookupSchedule locations dur)
          = ((locations.take 3).map dur).sum
      ∧ ((∀ l, dur l ≤ tryPlaywrightTimeout) →
          scheduleEnd (recommendationLookupSchedule locations dur)
            ≤ 3 * tryPlaywrightTimeout) := by
  refine ⟨chain_fanOutSchedule _ 0, scheduleEnd_fanOutSchedule _, ?_⟩
  intro hdur
  unfold recommendationLookupSchedule
  rw [scheduleEnd_fanOutSchedule]
  calc ((locations.take 3).map dur).sum
      ≤ ((locations.take 3).map dur).length * tryPlaywrightTimeout := by
        have := List.sum_le_card_nsmul ((locations.take 3).map dur) tryPlaywrightTimeout
          (by intro x hx
              rcases List.mem_map.mp hx with ⟨l, _, rfl⟩
              exact hdur l)
        simpa [smul_eq_mul] using this
    _ ≤ 3 * tryPlaywrightTimeout := by
        have hlen : ((locations.take 3).map dur).length ≤ 3 := by
          rw [List.length_map]
          exact (List.length_take 3 locations) ▸ min_le_left _ _
        exact Nat.mul_le_mul_right _ hlen

/-- Witness for C6's amended claim: one candidate, a 60-second lookup; the
schedule latency is 60 ≤ 180. -/
theorem fan_out_sequential_latency_witness :
    scheduleEnd (recommendationLookupSchedule ["Matterhorn"] (fun _ => 60))
        ≤ 3 * tryPlaywrightTimeout :=
  (fan_out_sequential_latency ["Matterhorn"] (fun _ => 60)).2.2 (fun _ => by decide)

/-! ### Claim C3

`parse_with_ollama` produces the degraded default only when the generation
endpoint answered 200 with a body that fails JSON decoding
(OllamaService lines 202-210).  A non-200 status raises
`Exception(f"Ollama API error: ...")` (line 187) and a timeout lets the
httpx exception propagate, so in both of those cases MainService's
`try_ollama` receives a non-200 reply and yields `None`: arbitration then
has no generative value at all. -/

/-- Counterexample to claim C3: a non-200 status from the generation
endpoint does not yield the degraded result — `parse_with_ollama` raises,
and `try_ollama` hands arbitration `None` instead of a generative value. -/
theorem generative_parse_non200_not_degraded_cx :
    parseWithOllama "Weather in Paris" (.http 500 none)
        = .error "Ollama API error: 500"
      ∧ parseWithOllama "Weather in Paris" (.http 500 none)
          ≠ .ok (degradedParse "Weather in Paris")
      ∧ tryOllama "Weather in Paris" (.http 500 none) = none := by
  refine ⟨rfl, by intro h; exact Except.noConfusion h, rfl⟩

/-- Amended claim C3: only a 200 response whose body fails JSON decoding
yields the degraded result `{intent: general_weather, location: null,
confidence: 0.3}` (which then reaches arbitration); a timeout or a non-200
status instead raises inside `parse_with_ollama`, and `try_ollama` converts
the resulting 500 reply to `None`, so arbitration proceeds with no
generative value for those failures. -/
theorem generative_parse_degraded_only_on_malformed_json
    (query : String) (status : ℕ) (decoded : Option Dict) :
    parseWithOllama query (.http 200 none) = .ok (degradedParse query)
      ∧ tryOllama query (.http 200 none) = some (degradedParse query)
      ∧ (status ≠ 200 → ∃ e, parseWithOllama query (.http status decoded) = .error e)
      ∧ (status ≠ 200 → tryOllama query (.http status decoded) = none)
      ∧ (∃ e, parseWithOllama query .exn = .error e)
      ∧ tryOllama query .exn = none := by
  refine ⟨rfl, rfl, ?_, ?_, ⟨_, rfl⟩, rfl⟩
  · intro h
    refine ⟨"Ollama API error: " ++ toString status, ?_⟩
    simp [parseWithOllama, h]
  · intro h
    simp [tryOllama, parseWithOllama, h]

/-- Witness for C3's amended claim: at status 500 the adapter raises and the
Main service sees no generative value, while a malformed 200 body degrades. -/
theorem generative_parse_degraded_only_on_malformed_json_witness :
    tryOllama "Best beaches in Italy" (.http 200 none)
        = some (degradedParse "Best beaches in Italy")
      ∧ tryOllama "Best beaches in Italy" (.http 503 none) = none :=
  ⟨(generative_parse_degraded_only_on_malformed_json "Best beaches in Italy" 503 none).2.1,
   (generative_parse_degraded_only_on_malformed_json "Best beaches in Italy" 503 none).2.2.2.1
     (by decide)⟩

/-! ### Claim C1 -/

/-- Claim C1: whenever the lowercased query contains a vocabulary
recommendation phrase and the substring `in`, the keyword-priority cascade
identifies a category, and the capitalized-word-run regex after `in `
matches, `parse_query_text` returns intent `recommendation`, no location,
confidence 0.9, the identified recommendation type, and the captured span as
the country — for any spaCy analysis of the query. -/
theorem parse_query_text_recommendation_emission
    (kw : KeywordStore) (ents : List (String × String)) (tokens : List SpacyTok)
    (query cat country : String)
    (hrec : anyKeyword (kwPhrasesD kw "recommendation" []) (lowerStr query) = true)
    (hin : strContains (lowerStr query) "in" = true)
    (hcat : recommendationCategory kw (lowerStr query) = some cat)
    (hre : searchCapRun query = some country) :
    parseQueryText kw ents tokens query
      = [("original_query", .s query), ("intent", .s "recommendation"),
         ("location", .nil), ("confidence", .q (9/10)),
         ("processing_method", .s "spacy"),
         ("recommendation_type", .s cat), ("country", .s country)] := by
  unfold parseQueryText
  simp only [hrec, hin, hcat, hre, Bool.and_self, if_true]

/-- Witness for C1: the spec's example query `Best beaches in Italy` with
the built-in vocabulary and any empty spaCy analysis. -/
theorem parse_query_text_recommendation_emission_witness :
    anyKeyword (kwPhrasesD defaultKeywords "recommendation" [])
        (lowerStr "Best beaches in Italy") = true
      ∧ strContains (lowerStr "Best beaches in Italy") "in" = true
      ∧ recommendationCategory defaultKeywords (lowerStr "Best beaches in Italy")
          = some "beach"
      ∧ searchCapRun "Best beaches in Italy" = some "Italy"
      ∧ parseQueryText defaultKeywords [] [] "Best beaches in Italy"
          = [("original_query", .s "Best beaches in Italy"),
             ("intent", .s "recommendation"), ("location", .nil),
             ("confidence", .q (9/10)), ("processing_method", .s "spacy"),
             ("recommendation_type", .s "beach"), ("country", .s "Italy")] :=
  ⟨by decide, by decide, by decide, by decide,
   parse_query_text_recommendation_emission defaultKeywords [] []
     "Best beaches in Italy" "beach" "Italy"
     (by decide) (by decide) (by decide) (by decide)⟩

/-! ### Claim C2 -/

/-- The filterMap step of the fan-out loop keeps `o` for candidate `loc`
exactly when the lookup succeeded and `o` is the observation built from its
response. -/
theorem aggStep_eq_some (lookup : Dict → Option Dict) (loc : String) (o : Obs) :
    (match lookup (recLookupDict loc) with
      | some wd =>
          if !wd.isEmpty && valTruthy (dictGetD wd "success" .nil) then
            some (mkObs loc wd)
          else none
      | none => none) = some o
      ↔ lookupSucceeded (lookup (recLookupDict loc)) = true
          ∧ o = mkObs loc ((lookup (recLookupDict loc)).getD []) := by
  cases h : lookup (recLookupDict loc) with
  | none => simp [lookupSucceeded]
  | some wd =>
      simp only [lookupSucceeded, Option.getD_some]
      by_cases hc : (!wd.isEmpty && valTruthy (dictGetD wd "success" .nil)) = true
      · simp [hc, eq_comm]
      · simp [hc]

/-- Membership in the kept observations of the fan-out. -/
theorem mem_aggResults (locations : List String) (lookup : Dict → Option Dict)
    (o : Obs) :
    o ∈ aggResults locations lookup
      ↔ ∃ l2 ∈ locations.take 3,
          lookupSucceeded (lookup (recLookupDict l2)) = true
            ∧ o = mkObs l2 ((lookup (recLookupDict l2)).getD []) := by
  unfold aggResults
  rw [List.mem_filterMap]
  constructor
  · rintro ⟨l2, hl2, hstep⟩
    exact ⟨l2, hl2, (aggStep_eq_some lookup l2 o).mp hstep⟩
  · rintro ⟨l2, hl2, hcond⟩
    exact ⟨l2, hl2, (aggStep_eq_some lookup l2 o).mpr hcond⟩

/-- Claim C2: for every non-empty candidate list, the aggregator issues the
lookups for exactly the first (at most 3) candidates, keeps exactly the
observations whose lookup returned a truthy `success`, answers `error` when
none succeeded, and otherwise answers `success` listing exactly the
successful observations (necessarily 1 to 3 of them). -/
theorem fan_out_aggregation_partial_success
    (rt : String) (loc : Option String) (locations : List String) (parsed : Dict)
    (lookup : Dict → Option Dict) (hne : locations ≠ []) :
    (fanOutAggregate rt loc locations parsed lookup).2
        = (locations.take 3).map recLookupDict
      ∧ (fanOutAggregate rt loc locations parsed lookup).2.length ≤ 3
      ∧ (∀ o : Obs, o ∈ aggResults locations lookup ↔ ∃ l2 ∈ locations.take 3,
           lookupSucceeded (lookup (recLookupDict l2)) = true
             ∧ o = mkObs l2 ((lookup (recLookupDict l2)).getD []))
      ∧ (aggResults locations lookup = []
          → (fanOutAggregate rt loc locations parsed lookup).1.status = "error")
      ∧ (aggResults locations lookup ≠ []
          → (fanOutAggregate rt loc locations parsed lookup).1.status = "success"
            ∧ (fanOutAggregate rt loc locations parsed lookup).1.response
                = String.intercalate " "
                    (("Best " ++ rt ++ "s in " ++ renderOptLoc loc ++ " today:")
                      :: (aggResults locations lookup).map renderObsLine)
            ∧ 1 ≤ (aggResults locations lookup).length
            ∧ (aggResults locations lookup).length ≤ 3) := by
  have hlen3 : (aggResults locations lookup).length ≤ 3 := by
    calc (aggResults locations lookup).length
        ≤ (locations.take 3).length := List.length_filterMap_le _ _
      _ ≤ 3 := (List.length_take 3 locations) ▸ min_le_left _ _
  have htr : (fanOutAggregate rt loc locations parsed lookup).2
      = (locations.take 3).map recLookupDict := rfl
  refine ⟨rfl, ?_, mem_aggResults locations lookup, ?_, ?_⟩
  · rw [htr, List.length_map]
    exact (List.length_take 3 locations) ▸ min_le_left _ _
  · intro h
    simp only [fanOutAggregate, h]
    rfl
  · intro h
    have hempty : (aggResults locations lookup).isEmpty = false :=
      isEmpty_false_of_ne_nil h
    refine ⟨?_, ?_, ?_, hlen3⟩
    · simp only [fanOutAggregate, hempty]
      rfl
    · simp only [fanOutAggregate, hempty]
      rfl
    · exact Nat.one_le_iff_ne_zero.mpr (fun hz => h (List.eq_nil_of_length_eq_zero hz))

/-- Witness for C2: three candidates of which exactly the second lookup
succeeds; the aggregate is a success carrying exactly that one
observation. -/
theorem fan_out_aggregation_partial_success_witness :
    (fanOutAggregate "beach" (some "Italy") ["A", "B", "C"] []
        (fun d => if dictGet d "location" = some (.s "B") then
            some [("location", .s "B"), ("success", .b true),
                  ("temperature", .s "20°"), ("condition", .s "Sunny")]
          else some [("success", .b false)])).1.status = "success"
      ∧ aggResults ["A", "B", "C"]
          (fun d => if dictGet d "location" = some (.s "B") then
              some [("location", .s "B"), ("success", .b true),
                    ("temperature", .s "20°"), ("condition", .s "Sunny")]
            else some [("success", .b false)])
          = [{ location := "B", temperature := .s "20°", condition := .s "Sunny" }] :=
  ⟨((fan_out_aggregation_partial_success "beach" (some "Italy") ["A", "B", "C"] []
      (fun d => if dictGet d "location" = some (.s "B") then
          some [("location", .s "B"), ("success", .b true),
                ("temperature", .s "20°"), ("condition", .s "Sunny")]
        else some [("success", .b false)])
      (by decide)).2.2.2.2 (by decide)).1,
   by decide⟩

/-! ### Claim C7

The override test at MainService line 281 is `location in mountain_fallback`,
a literal key lookup: the table carries each country in Title-case and in
all-lowercase spelling only, so a resolved country in any other casing is
not matched even though it is equal to a table key up to case. -/

/-- Counterexample to claim C7: the resolved country `SWITZERLAND` matches a
table key case-insensitively, yet the override does not fire and the
generative candidates survive. -/
theorem mountain_override_not_case_insensitive_cx :
    mountainFallback.any (fun p => lowerStr p.1 = lowerStr "SWITZERLAND") = true
      ∧ mountainTableGet (some "SWITZERLAND") = none
      ∧ (resolveRecommendation
          [("original_query", .s "Best mountains in SWITZERLAND"),
           ("intent", .s "mountain_recommendation"),
           ("location", .s "SWITZERLAND"),
           ("confidence", .q (9/10)), ("processing_method", .s "fallback")]
          (fun _ => ["GenPeak"])).2.2 = ["GenPeak"]
      ∧ ("GenPeak" :: []) ≠ ["Matterhorn", "Jungfrau", "Eiger", "Pilatus", "Rigi"] := by
  refine ⟨by decide, by decide, by decide, by decide⟩

/-- Amended claim C7: the mountain override fires when the resolved country
is literally a key of the static table (each of the six countries in
Title-case or all-lowercase spelling); in particular for `Switzerland` (in
either listed spelling) the candidates are Matterhorn, Jungfrau, Eiger,
Pilatus, Rigi regardless of what the generative recommend capability
returned, and the end-to-end flow for `Best mountains in Switzerland` issues
exactly the lookups for the first 3 of them. -/
theorem mountain_override_literal_key (recommendFn : String → List String)
    (lookup : Dict → Option Dict) (nlpRes : Option Dict) :
    (resolveRecommendation
        [("original_query", .s "Best mountains in Switzerland"),
         ("intent", .s "mountain_recommendation"),
         ("location", .s "Switzerland"),
         ("confidence", .q (9/10)), ("processing_method", .s "fallback")]
        recommendFn)
      = ("mountain", some "Switzerland",
         ["Matterhorn", "Jungfrau", "Eiger", "Pilatus", "Rigi"])
    ∧ (resolveRecommendation
        [("original_query", .s "best mountains over there"),
         ("intent", .s "mountain_recommendation"),
         ("location", .s "switzerland"),
         ("confidence", .q (9/10)), ("processing_method", .s "fallback")]
        recommendFn)
      = ("mountain", some "switzerland",
         ["Matterhorn", "Jungfrau", "Eiger", "Pilatus", "Rigi"])
    ∧ (askWeather "Best mountains in Switzerland" none nlpRes none recommendFn lookup).2
      = [recLookupDict "Matterhorn", recLookupDict "Jungfrau", recLookupDict "Eiger"] := by
  refine ⟨rfl, rfl, rfl⟩

/-! ### Claim C8 -/

/-- Removal of a key from a payload (used to state that an omitted field
leaves the composed text as if the field were absent). -/
def dictDrop (d : Dict) (k : String) : Dict :=
  d.filter (fun p => !(p.1 = k))

/-- Unfolding lemma for lookup on a cons cell. -/
theorem dictGet_cons (p : String × Val) (t : Dict) (k : String) :
    dictGet (p :: t) k = if p.1 = k then some p.2 else dictGet t k := by
  unfold dictGet
  by_cases h : p.1 = k <;> simp [List.find?, h]

/-- Dropping a key removes it. -/
theorem dictGet_dictDrop_self (d : Dict) (k : String) :
    dictGet (dictDrop d k) k = none := by
  induction d with
  | nil => rfl
  | cons p t ih =>
      simp only [dictDrop, List.filter_cons] at ih ⊢
      by_cases h : p.1 = k
      · simp only [h, decide_True, Bool.not_true]
        rw [if_neg (by simp)]
        exact ih
      · simp only [h, decide_False, Bool.not_false]
        rw [if_pos trivial, dictGet_cons]
        simp [h, ih]

/-- Dropping a key leaves every other key unchanged. -/
theorem dictGet_dictDrop_ne (d : Dict) (k k2 : String) (h : k2 ≠ k) :
    dictGet (dictDrop d k) k2 = dictGet d k2 := by
  induction d with
  | nil => rfl
  | cons p t ih =>
      simp only [dictDrop, List.filter_cons] at ih ⊢
      by_cases hp : p.1 = k
      · have hp2 : p.1 ≠ k2 := fun hh => h (hh ▸ hp)
        simp only [hp, decide_True, Bool.not_true]
        rw [if_neg (by simp), ih, dictGet_cons]
        simp [hp2]
      · simp only [hp, decide_False, Bool.not_false]
        rw [if_pos trivial, dictGet_cons, dictGet_cons, ih]

/-- A substring of the right part is a substring of the whole. -/
theorem containsSubL_append_left (n l2 : List Char) (l1 : List Char)
    (h : containsSubL n l2 = true) : containsSubL n (l1 ++ l2) = true := by
  induction l1 with
  | nil => simpa using h
  | cons c t ih =>
      show (n.isPrefixOf (c :: (t ++ l2)) || containsSubL n (t ++ l2)) = true
      rw [ih]
      exact Bool.or_true _

/-- A list starting with the needle contains it. -/
theorem containsSubL_prefix (n rest : List Char) :
    containsSubL n (n ++ rest) = true := by
  cases hn : n ++ rest with
  | nil =>
      have : n = [] := by
        cases n with
        | nil => rfl
        | cons a t => simp at hn
      simp [containsSubL, this]
  | cons c t =>
      show (n.isPrefixOf (c :: t) || containsSubL n t) = true
      rw [← hn]
      have : n.isPrefixOf (n ++ rest) = true := by
        rw [List.isPrefixOf_iff_prefix]
        exact List.prefix_append n rest
      rw [this]
      exact Bool.true_or _

/-- Counterexample to claim C8: a recommendation aggregate line for a
successful observation whose lookup response carries no temperature and no
condition key renders the sentinel `N/A` literally, twice. -/
theorem aggregate_line_renders_sentinel_cx :
    (fanOutAggregate "beach" (some "Italy") ["Rimini"] []
        (fun _ => some [("success", .b true)])).1.status = "success"
      ∧ (fanOutAggregate "beach" (some "Italy") ["Rimini"] []
          (fun _ => some [("success", .b true)])).1.response
          = "Best beachs in Italy today: 🏙️ Rimini: N/A, N/A"
      ∧ strContains (fanOutAggregate "beach" (some "Italy") ["Rimini"] []
          (fun _ => some [("success", .b true)])).1.response "N/A" = true := by
  refine ⟨rfl, rfl, by decide⟩

/-- Amended claim C8: the omission rules hold for the single-location
sentence composed by `format_response` — a temperature that fails the
display test (absent, null, empty, or `N/A`) leaves the text exactly as if
the field were absent, likewise a condition (absent, null, empty, `N/A`, or
`Unknown`) — but the lines of a recommendation aggregate perform no
omission: a successful observation whose lookup response lacks the
temperature key stores the literal sentinel `N/A` and renders it in its
line. -/
theorem format_response_omission_rules :
    (∀ wd : Dict, dictGet wd "temperature" = some (.s "N/A") → tempShownD wd = false)
      ∧ (∀ wd : Dict, tempShownD wd = false →
          formatResponse wd = formatResponse (dictDrop wd "temperature"))
      ∧ (∀ wd : Dict, dictGet wd "condition" = some (.s "N/A")
            ∨ dictGet wd "condition" = some (.s "Unknown") → condShownD wd = false)
      ∧ (∀ wd : Dict, condShownD wd = false →
          formatResponse wd = formatResponse (dictDrop wd "condition"))
      ∧ (∀ (loc : String) (wd : Dict), dictGet wd "temperature" = none →
          (mkObs loc wd).temperature = .s "N/A"
            ∧ strContains (renderObsLine (mkObs loc wd)) "N/A" = true) := by
  refine ⟨?_, ?_, ?_, ?_, ?_⟩
  · intro wd h
    simp [tempShownD, h, valTruthy]
  · intro wd h
    have h1 : dictGet (dictDrop wd "temperature") "temperature" = none :=
      dictGet_dictDrop_self wd "temperature"
    have h2 : tempShownD (dictDrop wd "temperature") = false := by
      simp [tempShownD, h1]
    have h3 : condShownD (dictDrop wd "temperature") = condShownD wd := by
      unfold condShownD
      rw [dictGet_dictDrop_ne wd "temperature" "condition" (by decide)]
    have h4 : dictGetD (dictDrop wd "temperature") "location" (.s "Unknown")
        = dictGetD wd "location" (.s "Unknown") := by
      unfold dictGetD
      rw [dictGet_dictDrop_ne wd "temperature" "location" (by decide)]
    have h5 : dictGetD (dictDrop wd "temperature") "condition" .nil
        = dictGetD wd "condition" .nil := by
      unfold dictGetD
      rw [dictGet_dictDrop_ne wd "temperature" "condition" (by decide)]
    unfold formatResponse
    rw [h, h2, h3, h4, h5]
    simp
  · intro wd h
    rcases h with h | h <;> simp [condShownD, h, valTruthy]
  · intro wd h
    have h1 : dictGet (dictDrop wd "condition") "condition" = none :=
      dictGet_dictDrop_self wd "condition"
    have h2 : condShownD (dictDrop wd "condition") = false := by
      simp [condShownD, h1]
    have h3 : tempShownD (dictDrop wd "condition") = tempShownD wd := by
      unfold tempShownD
      rw [dictGet_dictDrop_ne wd "condition" "temperature" (by decide)]
    have h4 : dictGetD (dictDrop wd "condition") "location" (.s "Unknown")
        = dictGetD wd "location" (.s "Unknown") := by
      unfold dictGetD
      rw [dictGet_dictDrop_ne wd "condition" "location" (by decide)]
    have h5 : dictGetD (dictDrop wd "condition") "temperature" .nil
        = dictGetD wd "temperature" .nil := by
      unfold dictGetD
      rw [dictGet_dictDrop_ne wd "condition" "temperature" (by decide)]
    unfold formatResponse
    rw [h, h2, h3, h4, h5]
    simp
  · intro loc wd h
    have ht : (mkObs loc wd).temperature = .s "N/A" := by
      simp [mkObs, dictGetD, h]
    refine ⟨ht, ?_⟩
    unfold renderObsLine strContains
    rw [ht]
    simp only [mkObs, renderVal, String.data_append, List.append_assoc]
    apply containsSubL_append_left
    apply containsSubL_append_left
    apply containsSubL_append_left
    exact containsSubL_prefix _ _

/-- Witness for C8's amended claim: a concrete sentinel-laden single
observation is omitted from the sentence, and a successful lookup without a
temperature key stores and renders the sentinel. -/
theorem format_response_omission_rules_witness :
    tempShownD [("location", .s "Paris"), ("temperature", .s "N/A")] = false
      ∧ formatResponse [("location", .s "Paris"), ("temperature", .s "N/A")]
          = formatResponse (dictDrop [("location", .s "Paris"), ("temperature", .s "N/A")] "temperature")
      ∧ strContains (renderObsLine (mkObs "Rimini" [("success", .b true)])) "N/A" = true :=
  ⟨by decide,
   format_response_omission_rules.2.1 [("location", .s "Paris"), ("temperature", .s "N/A")]
     (by decide),
   (format_response_omission_rules.2.2.2.2 "Rimini" [("success", .b true)] (by decide)).2⟩

/-! ### Claim C4

When the resolved parse is situational and no user location is supplied,
`ask_weather` returns `handle_situational_query`'s reply, whose status is
`location_required`.  But when the resolved parse is not situational and
carries no location, the generic refusal at MainService lines 169-177 is
returned with `status="error"`, not `location_required` — so the claim's
blanket quantification over every location-less request fails. -/

/-- A situational parse is never routed to the recommendation handler. -/
theorem rec_false_of_situational (parsed : Option Dict)
    (h : parsedIsSituational parsed = true) : parsedHasRecIntent parsed = false := by
  cases parsed with
  | none => simp [parsedIsSituational] at h
  | some d =>
      unfold parsedIsSituational at h
      simp only [Bool.and_eq_true, decide_eq_true_eq] at h
      obtain ⟨hne, hint⟩ := h
      simp [parsedHasRecIntent, hint, isRecIntent, hne]

/-- Counterexample to claim C4: the query `weather` resolves to no location
(the classifier returns a null location) and no user location is supplied,
yet the response status is `error`, not `location_required` — even though it
does set `requires_location` and a non-empty suggestion list, and issues no
lookup. -/
theorem no_location_nonsituational_error_cx :
    parseEndpoint defaultKeywords [] [] "weather"
        = some [("original_query", .s "weather"), ("intent", .s "current_weather"),
                ("location", .nil), ("confidence", .q (7/10)),
                ("processing_method", .s "spacy")]
      ∧ (askWeather "weather" none
          (some [("original_query", .s "weather"), ("intent", .s "current_weather"),
                 ("location", .nil), ("confidence", .q (7/10)),
                 ("processing_method", .s "spacy")])
          none (fun _ => []) (fun _ => none)).1.status = "error"
      ∧ (askWeather "weather" none
          (some [("original_query", .s "weather"), ("intent", .s "current_weather"),
                 ("location", .nil), ("confidence", .q (7/10)),
                 ("processing_method", .s "spacy")])
          none (fun _ => []) (fun _ => none)).1.status ≠ "location_required"
      ∧ (askWeather "weather" none
          (some [("original_query", .s "weather"), ("intent", .s "current_weather"),
                 ("location", .nil), ("confidence", .q (7/10)),
                 ("processing_method", .s "spacy")])
          none (fun _ => []) (fun _ => none)).1.requires_location = true
      ∧ (askWeather "weather" none
          (some [("original_query", .s "weather"), ("intent", .s "current_weather"),
                 ("location", .nil), ("confidence", .q (7/10)),
                 ("processing_method", .s "spacy")])
          none (fun _ => []) (fun _ => none)).2 = [] := by
  have h1 : parseQueryText defaultKeywords [] [] "weather"
      = [("original_query", .s "weather"), ("intent", .s "current_weather"),
         ("location", .nil), ("confidence", .q (min ((1:ℚ)/2 + 1/5) (9/10))),
         ("processing_method", .s "spacy")] := rfl
  have h2 : min ((1:ℚ)/2 + 1/5) (9/10) = 7/10 := by
    rw [min_eq_left (by norm_num : (1:ℚ)/2 + 1/5 ≤ 9/10)]
    norm_num
  refine ⟨?_, rfl, by decide, rfl, rfl⟩
  unfold parseEndpoint
  rw [h1, h2]
  rfl

/-- Amended claim C4: a situational parse without a user location yields the
`location_required` response with `requires_location` and a non-empty
`suggested_actions` list and no weather lookup; a situational parse with a
user location proceeds to the weather flow with the synthesized parse
`{intent: weather, location: user_location, confidence: 0.9}`; but a
non-situational, non-recommendation parse without any resolvable location
and without a user location yields status `error` (not `location_required`)
— still with `requires_location = true`, a non-empty canned suggestion, and
no lookup. -/
theorem situational_and_no_location_handling :
    (∀ query : String,
        (handleSituationalQuery query).status = "location_required"
          ∧ (handleSituationalQuery query).requires_location = true
          ∧ ∃ sugg, (handleSituationalQuery query).suggested_actions = some sugg
              ∧ sugg ≠ [])
      ∧ (∀ (query : String) (userLoc : Option String) (nlpRes ollamaRes : Option Dict)
            (recommendFn : String → List String) (lookup : Dict → Option Dict),
          parsedIsSituational (askWeatherParsed query nlpRes ollamaRes) = true →
          optStrTruthy userLoc = false →
          askWeather query userLoc nlpRes ollamaRes recommendFn lookup
            = (handleSituationalQuery query, []))
      ∧ (∀ (query : String) (userLoc : Option String) (nlpRes ollamaRes : Option Dict)
            (recommendFn : String → List String) (lookup : Dict → Option Dict),
          parsedIsSituational (askWeatherParsed query nlpRes ollamaRes) = true →
          optStrTruthy userLoc = true →
          (askWeather query userLoc nlpRes ollamaRes recommendFn lookup).2
              = [synthUserLocation query userLoc]
            ∧ dictGet (synthUserLocation query userLoc) "intent" = some (.s "weather")
            ∧ dictGet (synthUserLocation query userLoc) "location"
                = some (.s (userLoc.getD ""))
            ∧ dictGet (synthUserLocation query userLoc) "confidence" = some (.q (9/10)))
      ∧ (∀ (query : String) (userLoc : Option String) (nlpRes ollamaRes : Option Dict)
            (recommendFn : String → List String) (lookup : Dict → Option Dict),
          parsedHasRecIntent (askWeatherParsed query nlpRes ollamaRes) = false →
          parsedIsSituational (askWeatherParsed query nlpRes ollamaRes) = false →
          optStrTruthy userLoc = false →
          optStrTruthy (parsedLocation (askWeatherParsed query nlpRes ollamaRes)) = false →
          (askWeather query userLoc nlpRes ollamaRes recommendFn lookup).1.status = "error"
            ∧ (askWeather query userLoc nlpRes ollamaRes recommendFn lookup).1.requires_location
                = true
            ∧ (askWeather query userLoc nlpRes ollamaRes recommendFn lookup).1.suggested_actions
                = some ["Please provide your city or location"]
            ∧ (askWeather query userLoc nlpRes ollamaRes recommendFn lookup).2 = []) := by
  refine ⟨?_, ?_, ?_, ?_⟩
  · intro query
    unfold handleSituationalQuery
    by_cases h1 : anyKeyword ["mountain", "mountains", "peak", "peaks", "summit"]
        (lowerStr query) = true
    · simp [h1]
    · by_cases h2 : anyKeyword ["beach", "beaches", "coast", "shore"]
          (lowerStr query) = true
      · simp [h1, h2]
      · by_cases h3 : anyKeyword ["city", "cities", "town"] (lowerStr query) = true
        · simp [h1, h2, h3]
        · simp [h1, h2, h3]
  · intro query userLoc nlpRes ollamaRes recommendFn lookup hsit huser
    have hrec := rec_false_of_situational _ hsit
    unfold askWeather askWeatherRoute
    rw [hrec, hsit, huser]
    simp
  · intro query userLoc nlpRes ollamaRes recommendFn lookup hsit huser
    have hrec := rec_false_of_situational _ hsit
    refine ⟨?_, rfl, rfl, rfl⟩
    unfold askWeather askWeatherRoute
    rw [hrec, hsit, huser]
    simp only [Bool.false_eq_true, if_false, if_true, Bool.not_true]
    unfold askWeatherStage2
    have hr2 : parsedHasRecIntent (some (synthUserLocation query userLoc)) = false := by
      unfold parsedHasRecIntent synthUserLocation
      simp [dictGet_cons, isRecIntent]
    have hs2 : parsedIsSituational (some (synthUserLocation query userLoc)) = false := by
      unfold parsedIsSituational synthUserLocation
      simp [dictGet_cons]
    rw [hr2, hs2]
    simp only [Bool.false_eq_true, if_false]
    unfold weatherTail
    simp only [huser, if_true, Bool.not_true, Bool.false_eq_true, if_false]
    split <;> rfl
  · intro query userLoc nlpRes ollamaRes recommendFn lookup hrec hsit huser hloc
    unfold askWeather askWeatherRoute askWeatherStage2
    rw [hrec, hsit, huser]
    simp only [Bool.false_eq_true, if_false, Bool.not_false, if_true]
    simp [weatherTail, huser, hloc]

/-- Witness for C4's amended claim: the spec's example `Where should I go?`
with a situational NLP parse and no user location lands in the
`location_required` response with generic suggestions. -/
theorem situational_and_no_location_handling_witness :
    askWeather "Where should I go?" none
        (some [("original_query", .s "Where should I go?"), ("intent", .s "situational"),
               ("location", .nil), ("confidence", .q (9/10)),
               ("processing_method", .s "spacy")])
        none (fun _ => []) (fun _ => none)
      = (handleSituationalQuery "Where should I go?", []) :=
  situational_and_no_location_handling.2.1 "Where should I go?" none
    (some [("original_query", .s "Where should I go?"), ("intent", .s "situational"),
           ("location", .nil), ("confidence", .q (9/10)),
           ("processing_method", .s "spacy")])
    none (fun _ => []) (fun _ => none) (by decide) rfl

/-! ### Claim C9 -/

/-- Unfolding lemma for category lookup on a cons cell. -/
theorem getPhrases_cons (e : String × List String) (t : KeywordStore) (c : String) :
    getPhrases (e :: t) c = if e.1 = c then e.2 else getPhrases t c := by
  unfold getPhrases kwPhrasesD
  by_cases h : e.1 = c <;> simp [List.find?, h]

/-- An absent category has no phrases. -/
theorem getPhrases_eq_nil_of_find_none (S : KeywordStore) (c : String)
    (h : S.find? (fun q => q.1 = c) = none) : getPhrases S c = [] := by
  unfold getPhrases kwPhrasesD
  rw [h]

/-- Appending a fresh entry: lookups of present categories are unchanged and
lookups of the appended category find it when it was absent. -/
theorem getPhrases_append_single (S : KeywordStore) (u : String × List String)
    (c : String) :
    getPhrases (S ++ [u]) c
      = if (S.find? (fun q => q.1 = c)).isSome then getPhrases S c
        else (if u.1 = c then u.2 else []) := by
  induction S with
  | nil => simp [getPhrases_cons]; rfl
  | cons e t ih =>
      by_cases he : e.1 = c
      · rw [List.cons_append, getPhrases_cons, if_pos he,
            List.find?_cons_of_pos _ (by simp [he])]
        simp [getPhrases_cons, he]
      · rw [List.cons_append, getPhrases_cons, if_neg he, ih,
            List.find?_cons_of_neg _ (by simp [he]),
            getPhrases_cons, if_neg he]

/-- Extending the phrase list of a present category: the lookup of that
category returns the deduplicated extension. -/
theorem getPhrases_map_extend_self (S : KeywordStore) (u1 : String)
    (add : List String) (hf : (S.find? (fun q => q.1 = u1)).isSome = true) :
    getPhrases (S.map (fun q => if q.1 = u1 then (u1, (q.2 ++ add).dedup) else q)) u1
      = (getPhrases S u1 ++ add).dedup := by
  induction S with
  | nil => simp [List.find?] at hf
  | cons e t ih =>
      by_cases he : e.1 = u1
      · rw [List.map_cons, if_pos he, getPhrases_cons, if_pos rfl, getPhrases_cons,
            if_pos he]
      · rw [List.map_cons, if_neg he, getPhrases_cons, if_neg he, getPhrases_cons,
            if_neg he]
        apply ih
        simpa [List.find?, he] using hf

/-- Extending the phrase list of one category leaves every other category's
phrases unchanged. -/
theorem getPhrases_map_extend_other (S : KeywordStore) (u1 : String)
    (add : List String) (c : String) (hc : c ≠ u1) :
    getPhrases (S.map (fun q => if q.1 = u1 then (u1, (q.2 ++ add).dedup) else q)) c
      = getPhrases S c := by
  induction S with
  | nil => rfl
  | cons e t ih =>
      by_cases he : e.1 = u1
      · have h1 : ¬(u1 = c) := fun h => hc h.symm
        have h2 : ¬(e.1 = c) := fun h => hc ((he.symm.trans h).symm)
        rw [List.map_cons, if_pos he, getPhrases_cons, if_neg h1,
            getPhrases_cons, if_neg h2, ih]
      · rw [List.map_cons, if_neg he, getPhrases_cons, getPhrases_cons]
        by_cases hec : e.1 = c
        · rw [if_pos hec, if_pos hec]
        · rw [if_neg hec, if_neg hec, ih]

/-- Membership after one merge step is the union of the old membership and
the step's phrases for that category. -/
theorem mem_updateKeywordsStep (S : KeywordStore) (u : String × List String)
    (c p : String) :
    p ∈ getPhrases (updateKeywordsStep S u) c
      ↔ p ∈ getPhrases S c ∨ (c = u.1 ∧ p ∈ u.2) := by
  unfold updateKeywordsStep
  by_cases hf : (S.find? (fun q => q.1 = u.1)).isSome = true
  · rw [if_pos hf]
    by_cases hc : c = u.1
    · subst hc
      rw [getPhrases_map_extend_self S u.1 u.2 hf]
      simp [List.mem_dedup]
    · rw [getPhrases_map_extend_other S u.1 u.2 c hc]
      simp [hc]
  · have hf2 : S.find? (fun q => q.1 = u.1) = none :=
      Option.not_isSome_iff_eq_none.mp (by simpa using hf)
    rw [if_neg hf, getPhrases_append_single]
    by_cases hc : (S.find? (fun q => q.1 = c)).isSome
    · rw [if_pos hc]
      have hne : c ≠ u.1 := fun h => by
        rw [h] at hc
        rw [hf2] at hc
        simp at hc
      simp [hne]
    · rw [if_neg hc]
      have hnil : getPhrases S c = [] :=
        getPhrases_eq_nil_of_find_none S c
          (Option.not_isSome_iff_eq_none.mp (by simpa using hc))
      rw [hnil]
      by_cases hcu : u.1 = c
      · subst hcu
        simp
      · have hne : ¬(c = u.1) := fun h => hcu h.symm
        simp [hcu, hne]

/-- Membership after a full merge is the union of the old membership and the
update mapping's phrases for that category. -/
theorem mem_updateKeywords (S K : KeywordStore) (c p : String) :
    p ∈ getPhrases (updateKeywords S K) c
      ↔ p ∈ getPhrases S c ∨ ∃ news, (c, news) ∈ K ∧ p ∈ news := by
  induction K generalizing S with
  | nil => simp [updateKeywords]
  | cons u K ih =>
      unfold updateKeywords at ih ⊢
      rw [List.foldl_cons, ih (updateKeywordsStep S u), mem_updateKeywordsStep]
      simp only [List.mem_cons, Prod.ext_iff]
      constructor
      · rintro ((h | ⟨hcu, hp⟩) | ⟨news, hn, hp⟩)
        · exact Or.inl h
        · exact Or.inr ⟨u.2, Or.inl ⟨hcu, rfl⟩, hp⟩
        · exact Or.inr ⟨news, Or.inr hn, hp⟩
      · rintro (h | ⟨news, (⟨hcu, hnews⟩ | hn), hp⟩)
        · exact Or.inl (Or.inl h)
        · exact Or.inl (Or.inr ⟨hcu, hnews ▸ hp⟩)
        · exact Or.inr ⟨news, hn, hp⟩

/-- Phrase preservation of MainService's `update_keywords_from_ollama`: the
situational category is only ever extended (then deduplicated), other
categories are untouched. -/
theorem mem_updateKeywordsFromOllama (query : String) (S : KeywordStore)
    (c p : String) (h : p ∈ getPhrases S c) :
    p ∈ getPhrases (updateKeywordsFromOllama query S) c := by
  unfold updateKeywordsFromOllama
  set newKws := (splitWs (lowerStr query)).filter (fun w =>
    decide (3 < w.length)
      && !(getPhrases S "situational").contains w
      && !(getPhrases S "weather").contains w
      && anyKeyword ["where", "best", "worst", "should", "can"] (lowerStr query)) with hnew
  by_cases hemp : newKws.isEmpty
  · rw [if_pos hemp]
    exact h
  · rw [if_neg hemp]
    by_cases hc : c = "situational"
    · subst hc
      by_cases hf : (S.find? (fun q => q.1 = "situational")).isSome = true
      · rw [getPhrases_map_extend_self S "situational" newKws hf]
        simp only [List.mem_dedup, List.mem_append]
        exact Or.inl h
      · have hnil : getPhrases S "situational" = [] :=
          getPhrases_eq_nil_of_find_none S "situational"
            (Option.not_isSome_iff_eq_none.mp (by simpa using hf))
        rw [hnil] at h
        simp at h
    · rw [getPhrases_map_extend_other S "situational" newKws c hc]
      exact h

/-- Claim C9: vocabulary merge behaves as per-category set union — merging
the same update mapping twice yields the same membership as merging it once,
merging an already-present phrase leaves the category's membership
unchanged, no merge ever removes a phrase, and the Main service's
query-word enrichment never removes a phrase either. -/
theorem vocabulary_merge_set_union (S K : KeywordStore) (c p q query : String) :
    (p ∈ getPhrases (updateKeywords (updateKeywords S K) K) c
        ↔ p ∈ getPhrases (updateKeywords S K) c)
      ∧ (p ∈ getPhrases S c → p ∈ getPhrases (updateKeywords S K) c)
      ∧ (q ∈ getPhrases S c →
          (p ∈ getPhrases (updateKeywords S [(c, [q])]) c ↔ p ∈ getPhrases S c))
      ∧ (p ∈ getPhrases S c → p ∈ getPhrases (updateKeywordsFromOllama query S) c) := by
  refine ⟨?_, ?_, ?_, mem_updateKeywordsFromOllama query S c p⟩
  · rw [mem_updateKeywords, mem_updateKeywords]
    tauto
  · intro h
    rw [mem_updateKeywords]
    exact Or.inl h
  · intro hq
    rw [mem_updateKeywords]
    constructor
    · rintro (h | ⟨news, hn, hp⟩)
      · exact h
      · simp only [List.mem_singleton, Prod.mk.injEq] at hn
        rcases hn with ⟨_, hnews⟩
        rw [hnews] at hp
        simp only [List.mem_singleton] at hp
        rw [hp]
        exact hq
    · intro h
      exact Or.inl h

/-- Witness for C9: a concrete store and update mapping; merging twice keeps
the same membership, and re-merging a present phrase is a no-op. -/
theorem vocabulary_merge_set_union_witness :
    "where" ∈ getPhrases [("situational", ["where"])] "situational"
      ∧ ("nearby" ∈ getPhrases
            (updateKeywords
              (updateKeywords [("situational", ["where"])]
                [("situational", ["where", "nearby"]), ("weather", ["sunny"])])
              [("situational", ["where", "nearby"]), ("weather", ["sunny"])])
            "situational"
          ↔ "nearby" ∈ getPhrases
              (updateKeywords [("situational", ["where"])]
                [("situational", ["where", "nearby"]), ("weather", ["sunny"])])
              "situational")
      ∧ ("where" ∈ getPhrases
            (updateKeywords [("situational", ["where"])] [("situational", ["where"])])
            "situational"
          ↔ "where" ∈ getPhrases [("situational", ["where"])] "situational") :=
  ⟨by decide,
   (vocabulary_merge_set_union [("situational", ["where"])]
      [("situational", ["where", "nearby"]), ("weather", ["sunny"])]
      "situational" "nearby" "x" "x").1,
   (vocabulary_merge_set_union [("situational", ["where"])] [("situational", ["where"])]
      "situational" "where" "where" "x").2.2.1 (by decide)⟩

/-! ### Claim C10 -/

/-- Every result dict of the classifier validates against the
`QueryResponse` model: its first five entries are the declared fields with
their declared types, whatever else follows. -/
theorem mkQueryResponse_parseQueryText (kw : KeywordStore)
    (ents : List (String × String)) (tokens : List SpacyTok) (query : String) :
    ∃ r, mkQueryResponse (parseQueryText kw ents tokens query) = some r := by
  unfold parseQueryText
  by_cases hA : (anyKeyword (kwPhrasesD kw "recommendation" []) (lowerStr query)
      && strContains (lowerStr query) "in") = true
  · rcases hX : searchCapRun query with _ | country
    · simp only [hA, if_true, hX]
      by_cases hS : (anyKeyword (kwPhrasesD kw "situational" ["where", "should go", "can go"])
          (lowerStr query) && !anyKeyword (kwPhrasesD kw "recommendation" []) (lowerStr query)) = true
      · simp only [hS, if_true]
        exact ⟨_, rfl⟩
      · simp only [hS, Bool.false_eq_true, if_false]
        exact ⟨_, rfl⟩
    · rcases hY : recommendationCategory kw (lowerStr query) with _ | cat
      · simp only [hA, if_true, hX, hY]
        by_cases hS : (anyKeyword (kwPhrasesD kw "situational" ["where", "should go", "can go"])
            (lowerStr query) && !anyKeyword (kwPhrasesD kw "recommendation" []) (lowerStr query)) = true
        · simp only [hS, if_true]
          exact ⟨_, rfl⟩
        · simp only [hS, Bool.false_eq_true, if_false]
          exact ⟨_, rfl⟩
      · simp only [hA, if_true, hX, hY]
        exact ⟨_, rfl⟩
  · simp only [hA, Bool.false_eq_true, if_false]
    by_cases hS : (anyKeyword (kwPhrasesD kw "situational" ["where", "should go", "can go"])
        (lowerStr query) && !anyKeyword (kwPhrasesD kw "recommendation" []) (lowerStr query)) = true
    · simp only [hS, if_true]
      exact ⟨_, rfl⟩
    · simp only [hS, Bool.false_eq_true, if_false]
      exact ⟨_, rfl⟩

/-- The serialized response model carries exactly the five declared fields,
never the recommendation-only ones. -/
theorem queryResponseFields_keys (r : QueryResponse) :
    dictKeys (queryResponseFields r)
        = ["original_query", "intent", "location", "confidence", "processing_method"]
      ∧ dictGet (queryResponseFields r) "recommendation_type" = none
      ∧ dictGet (queryResponseFields r) "country" = none := by
  refine ⟨rfl, rfl, rfl⟩

/-- Claim C10: every reply of the NLP `/parse` endpoint consists of exactly
the five declared fields `original_query`, `intent`, `location`,
`confidence`, `processing_method`; in particular the `recommendation_type`
and `country` entries a recommendation classification computes are stripped
by the response model and never cross this interface. -/
theorem parse_endpoint_exactly_five_fields (kw : KeywordStore)
    (ents : List (String × String)) (tokens : List SpacyTok) (query : String) :
    ∃ r : QueryResponse,
      parseEndpoint kw ents tokens query = some (queryResponseFields r)
        ∧ dictKeys (queryResponseFields r)
            = ["original_query", "intent", "location", "confidence", "processing_method"]
        ∧ dictGet (queryResponseFields r) "recommendation_type" = none
        ∧ dictGet (queryResponseFields r) "country" = none := by
  obtain ⟨r, hr⟩ := mkQueryResponse_parseQueryText kw ents tokens query
  refine ⟨r, ?_, (queryResponseFields_keys r).1, (queryResponseFields_keys r).2.1,
    (queryResponseFields_keys r).2.2⟩
  unfold parseEndpoint
  rw [hr]
  rfl

end WeatherAI


